import Mathlib

/-!
Verification development for the BMB dashboard core (TauOmegaNL/BMB-dashboard-public).

This file gives a shallow embedding, in Lean 4, of the data-handling core of the
dashboard: cell values of a pandas column, the dictionary-combination helper,
the dataset-deletion callbacks, the delimiter guesser, the group-by reducers,
the point-in-polygon spatial join, the map-layer region-code validation, the
chart-rendering callback and the layer-commit callback.  Machine floats of the
source are modelled as rationals (no claim here depends on rounding), pandas
missing values (NaN / None) as an explicit null cell, and fallible Python code
(KeyError, ValueError, assert) as Except results.  Each definition cites the
source file and lines it embeds.
-/

/-- A cell of a pandas column: a number (float/int, modelled as a rational),
a string, or a missing value (NaN / None). -/
inductive Value where
  | num (q : ℚ)
  | str (s : String)
  | null
deriving DecidableEq

/-- Numeric value of a list of decimal digit characters. -/
def digitsVal (cs : List Char) : Nat :=
  cs.foldl (fun a c => 10 * a + (c.toNat - 48)) 0

/-- Parse an unsigned decimal literal (digits, optionally a dot and more digits),
the fragment of Python float() syntax exercised by the dashboard data
(exponents, inf and nan are outside the modelled fragment). -/
def parseUnsigned (cs : List Char) : Option ℚ :=
  let ip := cs.takeWhile Char.isDigit
  let rest := cs.drop ip.length
  match rest with
  | [] => if ip.isEmpty then none else some ((digitsVal ip : ℚ))
  | '.' :: frac =>
      if frac.all Char.isDigit && (!ip.isEmpty || !frac.isEmpty) then
        some ((digitsVal ip : ℚ) + (digitsVal frac : ℚ) / ((10 : ℚ) ^ frac.length))
      else none
  | _ => none

/-- Parse a signed decimal literal, modelling Python float(s). -/
def parseQ (s : String) : Option ℚ :=
  match s.data with
  | '-' :: rest => (parseUnsigned rest).map (fun q => -q)
  | '+' :: rest => parseUnsigned rest
  | cs => parseUnsigned cs

/-- Cast one cell to float, modelling numpy astype(float) on one element:
numbers pass through, None / NaN becomes NaN (kept as null here), and a string
must parse as a decimal literal, otherwise a ValueError is raised. -/
def castCell (v : Value) : Except String Value :=
  match v with
  | .num q => .ok (.num q)
  | .null => .ok .null
  | .str s =>
      match parseQ s with
      | some q => .ok (.num q)
      | none => .error (("could not convert string to float: ") ++ s)

/-- Cast a whole column to float, modelling Series.astype(float): the first
non-coercible string raises ValueError for the whole column. -/
def castColumnFloat : List Value → Except String (List Value)
  | [] => .ok []
  | v :: vs =>
      match castCell v, castColumnFloat vs with
      | .ok w, .ok ws => .ok (w :: ws)
      | .error e, _ => .error e
      | .ok _, .error e => .error e

/-- Non-technical name of the Python type of a cell, as in
pagina_interactie_kaart.py get_unique_types (lines 1646-1673): int and float
map to getal, str to tekst/categorisch; NaN is a float, hence getal. -/
def typeName (v : Value) : String :=
  match v with
  | .num _ => ("getal")
  | .str _ => ("tekst/categorisch")
  | .null => ("getal")

/-- The distinct observed type names of a column, first occurrence first,
embedding pagina_interactie_kaart.py get_unique_types (lines 1646-1673). -/
def get_unique_types (l : List Value) : List String :=
  l.foldl (fun acc v => let t := typeName v; if t ∈ acc then acc else acc ++ [t]) []

/-- Python dict assignment d[k] = v on an association list: replace the value
of an existing key in place, else append the new key at the end. -/
def setKey {V : Type} : List (String × V) → String → V → List (String × V)
  | [], k, v => [(k, v)]
  | p :: rest, k, v => if p.1 = k then (k, v) :: rest else p :: setKey rest k v

/-- Key list of a dict. -/
def keysOf {V : Type} (d : List (String × V)) : List String := d.map (·.1)

/-- Embedding of data_utils.py combine_data_dicts (lines 673-677):
for key in data2.keys(): data1[key] = data2[key]; return data1. -/
def combine_data_dicts {V : Type} (data1 data2 : List (String × V)) : List (String × V) :=
  data2.foldl (fun acc p => setKey acc p.1 p.2) data1

/-- The fixed standard dataset names, pagina_data_laden.py line 23.
(The source never reads this variable again.) -/
def standard_datasets : List String := [("meet je stad")]

/-- Embedding of pagina_data_laden.py change_deletable_datasets (lines 657-680):
the dropdown of deletable datasets lists every key of the combined user and
real-time stores (the returned label/value pairs both equal the key). -/
def change_deletable_datasets {V : Type} (data rt_data : List (String × V)) : List String :=
  keysOf (combine_data_dicts data rt_data)

/-- Python dict.pop(name) without a default: remove the entry, or raise
KeyError when the key is absent. -/
def pop_dataset {V : Type} (data : List (String × V)) (name : String) :
    Except String (List (String × V)) :=
  if (data.lookup name).isSome then .ok (data.filter (fun p => p.1 ≠ name))
  else .error ("KeyError")

/-- Embedding of the delete branch of index.py load_real_time_data
(lines 132-134): data.pop(delete_dataset_name) on the real-time store. -/
def load_real_time_data_delete {V : Type} (rt_data : List (String × V)) (name : String) :
    Except String (List (String × V)) :=
  pop_dataset rt_data name

/-- Embedding of the delete branch of pagina_data_laden.py load_data
(lines 925-926): data.pop(delete_name) on the user dataset store. -/
def load_data_delete {V : Type} (data : List (String × V)) (name : String) :
    Except String (List (String × V)) :=
  pop_dataset data name

/-- Python max of two strings (lexicographic on code points), as used by
pandas groupby().max() on an object (string) column. -/
def max_string (a b : String) : String :=
  if compare a b = Ordering.lt then b else a

/-- Maximum of a list of category strings under max_string (groups are
never empty in the source; the empty string seed is below every string). -/
def max_category_of (l : List String) : String :=
  l.foldl max_string ("")

/-- The per-region category chosen by visualisatie_utils.py
add_categorical_level_choroplethmapbox (lines 503-513).  The source first
groups on [key_column, categorie_column] with count() - one row per distinct
(region, category) pair - and then groups on key_column with max(), which takes
the column-wise maximum of every remaining column independently: the category
value kept for a region is therefore the lexicographically greatest category
string occurring in that region (the counts are maximised separately and are
not used to pick it). -/
def add_categorical_level_choroplethmapbox_categories
    (rows : List (String × String)) : List (String × String) :=
  let pairs := rows.dedup
  ((pairs.map (·.1)).dedup).map
    (fun k => (k, max_category_of ((pairs.filter (fun p => p.1 = k)).map (·.2))))

/-- Largest multiplicity in a column: the value of
Series.value_counts().iloc[0] used at pagina_interactie_kaart.py line 1174. -/
def value_counts_max (col : List Value) : Nat :=
  (col.map (fun v => col.count v)).foldl Nat.max 0

/-- The warning condition of the categorical-map branch of _add_map_layers
(pagina_interactie_kaart.py line 1174): some region code occurs in more than
one row of the layer data. -/
def multi_category_warning_condition (col : List Value) : Bool :=
  decide (1 < value_counts_max col)

/-- Characters the delimiter guesser skips: letters, digits and the newline,
data_utils.py _get_sep line 604.  (Python isalpha/isdigit are Unicode-wide;
the ASCII classification suffices for the delimiters concerned.) -/
def char_skip (c : Char) : Bool :=
  c.isAlpha || c.isDigit || c = '\n'

/-- Insert a (character, frequency) pair into a list sorted by descending
frequency, keeping earlier-inserted pairs in front of equal frequencies. -/
def insert_by_count (x : Char × Nat) : List (Char × Nat) → List (Char × Nat)
  | [] => [x]
  | y :: ys => if y.2 ≤ x.2 then x :: y :: ys else y :: insert_by_count x ys

/-- Stable insertion sort by descending frequency. -/
def sort_by_count_desc : List (Char × Nat) → List (Char × Nat)
  | [] => []
  | x :: xs => insert_by_count x (sort_by_count_desc xs)

/-- Distinct characters of a line in first-occurrence order (the insertion
order of a Python Counter). -/
def first_occurrence_dedup (l : List Char) : List Char :=
  l.foldl (fun acc c => if c ∈ acc then acc else acc ++ [c]) []

/-- Counter(first).most_common(): distinct characters with their counts,
sorted by descending count, ties in first-occurrence order. -/
def most_common (l : List Char) : List (Char × Nat) :=
  sort_by_count_desc ((first_occurrence_dedup l).map (fun c => (c, l.count c)))

/-- Embedding of data_utils.py _get_sep (lines 585-612) on the first two
lines of the file: scan the first line's characters in descending frequency
order, skip letters, digits and newlines, and return the first character whose
count in the second line matches its count in the first line exactly;
otherwise fall back to tab and warn (the Bool records the warning). -/
def get_sep (first second : List Char) : Char × Bool :=
  match (most_common first).find?
      (fun p => (!(char_skip p.1)) && (second.count p.1 == p.2)) with
  | some p => (p.1, false)
  | none => ('\t', true)

/-- Distinct group keys of a keyed table (pandas sorts group keys; the order
of the distinct keys is immaterial to every property stated below). -/
def group_keys_of (rows : List (String × Value)) : List String :=
  (rows.map (·.1)).dedup

/-- The rows of one group. -/
def group_rows (rows : List (String × Value)) (k : String) : List (String × Value) :=
  rows.filter (fun r => r.1 = k)

/-- The numeric entries of a column (pandas aggregations skip NaN). -/
def non_null_nums (l : List Value) : List ℚ :=
  l.filterMap (fun v => match v with | .num q => some q | _ => none)

/-- Group mean with NaN skipped; an all-NaN group yields NaN. -/
def mean_cell (l : List Value) : Value :=
  let qs := non_null_nums l
  if qs.length = 0 then .null else .num (qs.sum / (qs.length : ℚ))

/-- Group max with NaN skipped; an all-NaN group yields NaN. -/
def max_cell (l : List Value) : Value :=
  match (non_null_nums l).maximum with
  | some q => .num q
  | none => .null

/-- Group min with NaN skipped; an all-NaN group yields NaN. -/
def min_cell (l : List Value) : Value :=
  match (non_null_nums l).minimum with
  | some q => .num q
  | none => .null

/-- Group sum with NaN skipped (pandas sums an all-NaN group to 0.0). -/
def sum_cell (l : List Value) : Value :=
  .num (non_null_nums l).sum

/-- Group count: number of non-missing cells, as pandas groupby().count(). -/
def count_cell (l : List Value) : Value :=
  .num (((l.filter (fun v => v ≠ Value.null)).length : ℚ))

/-- Result of grouping a keyed table: one entry per distinct group key, and
the aggregated target column, or none when pandas dropped the target column
as a non-numeric nuisance column. -/
structure GroupedOut where
  keys : List String
  target : Option (List Value)
deriving DecidableEq

/-- Apply a per-group aggregation to every group of a keyed table. -/
def grouped_agg (rows : List (String × Value)) (cell : List Value → Value) : GroupedOut :=
  ⟨group_keys_of rows,
   some ((group_keys_of rows).map (fun k => cell ((group_rows rows k).map (·.2))))⟩

/-- Column dtype test: a pandas column holds a numeric dtype exactly when no
cell is a string (numbers and NaN only). -/
def numeric_dtype (col : List Value) : Bool :=
  col.all (fun v => match v with | .str _ => false | _ => true)

/-- Embedding of _group_values (pagina_visualisatie_kaart.py lines 41-66 and
the identical copy in pagina_interactie_kaart.py lines 155-180), restricted to
the group-key column and the target column gdf[group_to].  The branches for
mean/max/min/sum first run gdf[group_to].astype(float) - a ValueError for a
non-coercible string; frequency counts non-missing cells per group without
casting; any other group_method falls into the final else, a groupby().mean()
WITHOUT the cast, in which legacy pandas silently drops a non-numeric target
column as a nuisance column (target = none). -/
def group_values (rows : List (String × Value)) (group_method : String) :
    Except String GroupedOut :=
  if group_method = ("mean") then
    match castColumnFloat (rows.map (·.2)) with
    | .error e => .error e
    | .ok casted => .ok (grouped_agg ((rows.map (·.1)).zip casted) mean_cell)
  else if group_method = ("max") then
    match castColumnFloat (rows.map (·.2)) with
    | .error e => .error e
    | .ok casted => .ok (grouped_agg ((rows.map (·.1)).zip casted) max_cell)
  else if group_method = ("min") then
    match castColumnFloat (rows.map (·.2)) with
    | .error e => .error e
    | .ok casted => .ok (grouped_agg ((rows.map (·.1)).zip casted) min_cell)
  else if group_method = ("sum") then
    match castColumnFloat (rows.map (·.2)) with
    | .error e => .error e
    | .ok casted => .ok (grouped_agg ((rows.map (·.1)).zip casted) sum_cell)
  else if group_method = ("frequency") then
    .ok (grouped_agg rows count_cell)
  else
    if numeric_dtype (rows.map (·.2)) then .ok (grouped_agg rows mean_cell)
    else .ok ⟨group_keys_of rows, none⟩

/-- A geographic point (longitude/latitude), coordinates as rationals. -/
abbrev Point := ℚ × ℚ

/-- One row of the per-level shape table produced by load_location_data:
region code, region name, and the polygon geometry.  The shapely polygon is
embedded as its strict containment test, a Boolean predicate on points (the
source calls shapes.geometry.contains(point), which is true exactly for
points in the polygon interior). -/
structure Shape where
  code : String
  naam : String
  contains : Point → Bool

/-- Embedding of data_utils.py _add_level_column (lines 206-218): select the
shapes whose polygon contains the row's point; the first match in shape-set
order supplies the region code and name, and a point in no shape gets the
sentinel pair.  (The source's `code` argument only names the two columns that
the Shape record already carries as fields.) -/
def add_level_column (punt : Point) (shapes : List Shape) : String × String :=
  match shapes.filter (fun s => s.contains punt) with
  | [] => (("onbekend"), ("onbekend"))
  | s :: _ => (s.code, s.naam)

/-- One row of a geometry-bearing table: the point geometry plus the cells of
the ordinary columns. -/
structure GeoRow where
  geom : Point
  cells : List Value
deriving DecidableEq

/-- A geometry-bearing table: ordinary column names plus rows. -/
structure GeoTable where
  cols : List String
  rows : List GeoRow
deriving DecidableEq

/-- pandas column assignment df[c] = vals: overwrite the column in place when
the name exists, else append a new column at the right edge. -/
def set_column (t : GeoTable) (c : String) (vals : List Value) : GeoTable :=
  match t.cols.indexOf? c with
  | some i =>
      ⟨t.cols, List.zipWith (fun r v => ⟨r.geom, r.cells.set i v⟩) t.rows vals⟩
  | none =>
      ⟨t.cols ++ [c], List.zipWith (fun r v => ⟨r.geom, r.cells ++ [v]⟩) t.rows vals⟩

/-- Embedding of data_utils.py _get_code (lines 638-648). -/
def get_code (level : String) : Option String :=
  if level = ("Buurt") then some ("BU_CODE")
  else if level = ("Wijk") then some ("WK_CODE")
  else if level = ("Gemeente") then some ("GM_CODE")
  else none

/-- Embedding of data_utils.py aggregate_point_data (lines 221-295) on a
table that already carries point geometry (for a plain DataFrame the source
first synthesises the points from the lat/long columns, lines 283-284): every
row is assigned a region code and region name through add_level_column, and
the two columns named by the level are written into the table.  An invalid
level makes _get_code return None (the source would then fail on code[:-5]).  -/
def aggregate_point_data (t : GeoTable) (shapes : List Shape) (level : String) :
    Option GeoTable :=
  (get_code level).map (fun code =>
    let naam := code.dropRight 5 ++ ("_NAAM")
    let assigned := t.rows.map (fun r => add_level_column r.geom shapes)
    let t1 := set_column t code (assigned.map (fun p => Value.str p.1))
    set_column t1 naam (assigned.map (fun p => Value.str p.2)))

/-- Is the cell a string?  (Region-code validation, line 1146.) -/
def is_str (v : Value) : Bool :=
  match v with | .str _ => true | _ => false

/-- Series.str[:2] on one cell: the first two characters of a string, NaN
(here none) for a non-string, which every comparison then counts as a
mismatch, exactly as NaN != code_start is True in pandas. -/
def first_two (v : Value) : Option String :=
  match v with | .str s => some (s.take 2) | _ => none

/-- Series.str.len() on one cell: none (NaN) for a non-string. -/
def str_len (v : Value) : Option Nat :=
  match v with | .str s => some s.length | _ => none

/-- Embedding of the region-code column check of _add_map_layers
(pagina_interactie_kaart.py lines 1146-1156), true = reject the column:
reject when no cell is a string, or when every cell fails the two-letter
code_start comparison, or when every cell fails the length-10 test AND every
cell fails the length-8 test AND every cell fails the length-6 test
(non-string cells count as failing each comparison, as NaN does in pandas). -/
def region_code_validation_fails (col : List Value) (code_start : String) : Bool :=
  if col.any is_str then
    (col.all (fun v => !(first_two v == some code_start)))
    || ((col.all (fun v => !(str_len v == some 10)))
        && (col.all (fun v => !(str_len v == some 8)))
        && (col.all (fun v => !(str_len v == some 6))))
  else true

/-- The code signature of a level, the dict lookup of
pagina_interactie_kaart.py line 1139 (a KeyError for any other level). -/
def level_code_start (level : String) : Option String :=
  if level = ("Buurt") then some ("BU")
  else if level = ("Wijk") then some ("WK")
  else if level = ("Gemeente") then some ("GM")
  else none

/-- A blocking render error of a figure pass, with the data of the source
message it embeds (pagina_interactie_kaart.py lines 1143, 31-33, 1184-1186). -/
inductive RenderError where
  | code_column (figure dataset column level : String)
  | type_mismatch (figure inputtype charttype layer column : String) (types : List String)
  | palette (figure : String) (n_categories n_colors : Nat)
deriving DecidableEq

/-- A non-blocking render warning of a figure pass. -/
inductive RenderWarning where
  | duplicate_x (figure : String)
  | multi_category (figure layer labels : String)
deriving DecidableEq

/-- A map trace produced for one layer; the plotly figure construction is
presentation and the trace records which branch emitted it. -/
inductive MapTrace where
  | choropleth (layer : String)
  | categorical (layer : String)
  | bubble (layer : String)
deriving DecidableEq

/-- Number of colors in plotly px.colors.qualitative.Alphabet, the palette
basic_colors of visualisatie_utils.py line 11. -/
def basic_colors_length : Nat := 26

/-- Number of distinct category values of a column. -/
def unique_category_count (col : List Value) : Nat :=
  col.dedup.length

/-- One map layer record as consumed by _add_map_layers. -/
structure MapLayer where
  selected_dataset : String
  layer_name : String
  visualisation_type : Option String
  map_level : String
  map_data : String
  map_labels : String
  aggregate_method : Option String
deriving DecidableEq

/-- Embedding of one iteration of the layer loop of _add_map_layers
(pagina_interactie_kaart.py lines 1124-1189), given the figure's level and the
layer data restricted to the region-code column (map_labels) and the data
column (map_data) of each row: drop rows whose code cell equals onbekend;
assert the layer's level against the figure's level (an AssertionError in the
source); look up the level's code signature; reject a bad region-code column
with one code_column error and skip the layer; otherwise dispatch on the
visualisation type - the numeric choropleth casts the data column to float
unless the reducer is frequency, turning a ValueError into one type_mismatch
error, the categorical branch warns when a region code occurs in more than
one row and errors when the categories exceed the palette, and the bubble
branch always renders.  Returns (trace, errors, warnings). -/
def process_map_layer (figure_level : String) (rows : List (Value × Value))
    (layer : MapLayer) :
    Except String (Option MapTrace × List RenderError × List RenderWarning) :=
  let rows1 := rows.filter (fun r => r.1 ≠ Value.str ("onbekend"))
  if layer.map_level ≠ figure_level then
    .error (("Regio van dataset komt niet overeen met de regio van de kaart"))
  else
    match level_code_start layer.map_level with
    | none => .error ("KeyError")
    | some code_start =>
      let labels := rows1.map (·.1)
      if region_code_validation_fails labels code_start then
        .ok (none,
             [RenderError.code_column (("Kaart visualisatie")) layer.selected_dataset
                layer.map_labels layer.map_level], [])
      else
        match layer.visualisation_type with
        | none => .ok (none, [], [])
        | some vt =>
          if vt = ("choroplethmapbox") then
            if layer.aggregate_method ≠ some ("frequency") then
              match castColumnFloat (rows1.map (·.2)) with
              | .ok _ => .ok (some (.choropleth layer.layer_name), [], [])
              | .error _ =>
                  .ok (none,
                       [RenderError.type_mismatch (("Kaart visualisatie")) (("visualisatie"))
                          (("Numerieke kaart")) layer.layer_name layer.map_data
                          (get_unique_types (rows1.map (·.2)))], [])
            else .ok (some (.choropleth layer.layer_name), [], [])
          else if vt = ("categorical_choroplethmapbox") then
            let warns :=
              if multi_category_warning_condition labels then
                [RenderWarning.multi_category (("Kaart visualisatie")) layer.layer_name
                   layer.map_labels]
              else []
            if basic_colors_length < unique_category_count (rows1.map (·.2)) then
              .ok (none,
                   [RenderError.palette (("Kaart visualisatie"))
                      (unique_category_count (rows1.map (·.2))) basic_colors_length], warns)
            else .ok (some (.categorical layer.layer_name), [], warns)
          else if vt = ("bubble_mapbox") then
            .ok (some (.bubble layer.layer_name), [], [])
          else .ok (none, [], [])

/-- The chart kinds embedded for the chart-rendering callback.  The source
additionally handles grouped_barchart and multi_histogram, whose list-valued
column selections lie outside this record type; no claim below concerns them. -/
inductive ChartVis where
  | scatter
  | barchart
  | piechart
  | histogram
deriving DecidableEq

/-- One chart layer record as consumed by update_figures. -/
structure ChartLayer where
  figure_name : Option String
  layer_name : String
  visualisation_type : Option ChartVis
  selected_dataset : String
  x_data : Option String
  x_axis : Option String
  y_data : Option String
  y_axis : Option String
deriving DecidableEq

/-- A dataset table, column-oriented: column name to cells. -/
abbrev ChartTable := List (String × List Value)

/-- Comparison used for sorting a pandas/numpy column: numbers by value with
NaN ordered last, strings lexicographically.  (numpy argsort is an unstable
introsort and raises on genuinely mixed object columns; a stable sort with a
total fallback is used here, and no claim depends on tie order or mixed
columns.) -/
def value_le (a b : Value) : Bool :=
  match a, b with
  | .num x, .num y => decide (x ≤ y)
  | .str x, .str y => !(compare x y == Ordering.gt)
  | .num _, .null => true
  | .null, .num _ => false
  | _, _ => true

/-- Insert into a sorted list, keeping earlier elements in front of ties. -/
def insert_le {α : Type} (le : α → α → Bool) (x : α) : List α → List α
  | [] => [x]
  | y :: ys => if le x y then x :: y :: ys else y :: insert_le le x ys

/-- Stable insertion sort. -/
def sort_le {α : Type} (le : α → α → Bool) : List α → List α
  | [] => []
  | x :: xs => insert_le le x (sort_le le xs)

/-- np.argsort of a column: index positions ordered by cell value. -/
def argsort (l : List Value) : List Nat :=
  sort_le (fun i j => value_le (l.getD i Value.null) (l.getD j Value.null))
    (List.range l.length)

/-- Series.iloc[idx]: positional selection of a column by an index list. -/
def take_idx (l : List Value) (idx : List Nat) : List Value :=
  idx.map (fun i => l.getD i Value.null)

/-- One chart trace; the plotly construction itself is presentation and the
trace records the series handed to it. -/
inductive ChartTrace where
  | scatter (xs ys : List Value) (name : String)
  | bar (xs ys : List Value) (name : String)
  | pie (labels values : List Value)
  | histo (xs : List Value) (name : String)
deriving DecidableEq

/-- A chart figure: its traces plus the layout set after each layer. -/
structure ChartFigure where
  traces : List ChartTrace
  x_title : Option String
  y_title : Option String
  title : Option String
deriving DecidableEq

/-- The empty figure a slot starts from. -/
def empty_figure : ChartFigure := ⟨[], none, none, none⟩

/-- The error_names dict of pagina_interactie_kaart.py lines 26-28. -/
def error_names_lookup (k : String) : Option String :=
  if k = ("extra_vis_1") then some ("Grafiek 1")
  else if k = ("extra_vis_2") then some ("Grafiek 2")
  else if k = ("map_vis") then some ("Kaart visualisatie")
  else none

/-- Column lookup gdf[c]: a KeyError when the name is None or absent. -/
def get_column (t : ChartTable) (c : Option String) : Except String (List Value) :=
  match c with
  | none => .error ("KeyError")
  | some s =>
      match t.lookup s with
      | some col => .ok col
      | none => .error ("KeyError")

/-- Outcome of one chart layer: either the early whole-callback no_update of
line 989 (a layer with no visualisation type), or a possible trace plus the
errors and warnings the layer appended. -/
inductive LayerStep where
  | abort_no_update
  | step (tr : Option ChartTrace) (errs : List RenderError) (warns : List RenderWarning)
deriving DecidableEq

/-- Embedding of one iteration of the layer loop of update_figures
(pagina_interactie_kaart.py lines 983-1090) for the embedded chart kinds,
given the figure's error name en.  Scatter (991-1014): try to cast x and y to
float, KEEPING the original strings when the cast raises (the except clauses
do pass), sort both series by the x order, and always emit the trace.
Barchart (1016-1034): sort by x, warn on duplicate x values, then cast y -
a ValueError yields one type_mismatch error naming the y column and its
observed types, and no trace.  Piechart (1056-1068): cast y, sort both by y,
a ValueError yields one type_mismatch error.  Histogram (1070-1077): try to
cast x, keep strings on failure, and emit the sorted values.  Dataset and
column lookups are KeyErrors; a layer without a visualisation type returns
the whole-callback no_update of lines 988-989. -/
def process_chart_layer (en : String) (all_data : List (String × ChartTable))
    (layer : ChartLayer) : Except String LayerStep :=
  match all_data.lookup layer.selected_dataset with
  | none => .error ("KeyError")
  | some gdf =>
    match layer.visualisation_type with
    | none => .ok .abort_no_update
    | some ChartVis.scatter =>
        match get_column gdf layer.x_data with
        | .error e => .error e
        | .ok x0 =>
          match get_column gdf layer.y_data with
          | .error e => .error e
          | .ok y0 =>
            let x1 := match castColumnFloat x0 with | .ok c => c | .error _ => x0
            let idx := argsort x1
            let y1 := match castColumnFloat y0 with | .ok c => c | .error _ => y0
            .ok (.step (some (.scatter (take_idx x1 idx) (take_idx y1 idx)
                                layer.layer_name)) [] [])
    | some ChartVis.barchart =>
        match get_column gdf layer.x_data with
        | .error e => .error e
        | .ok x0 =>
          let idx := argsort x0
          let xs := take_idx x0 idx
          let warns :=
            if xs.dedup.length ≠ xs.length then [RenderWarning.duplicate_x en] else []
          match layer.y_data with
          | none => .error ("KeyError")
          | some ycol =>
            match gdf.lookup ycol with
            | none => .error ("KeyError")
            | some y0 =>
              match castColumnFloat y0 with
              | .ok y1 =>
                  .ok (.step (some (.bar xs (take_idx y1 idx) layer.layer_name)) [] warns)
              | .error _ =>
                  .ok (.step none
                        [RenderError.type_mismatch en ("y") ("barchart") layer.layer_name
                           ycol (get_unique_types y0)] warns)
    | some ChartVis.piechart =>
        match get_column gdf layer.x_data with
        | .error e => .error e
        | .ok x0 =>
          match layer.y_data with
          | none => .error ("KeyError")
          | some ycol =>
            match gdf.lookup ycol with
            | none => .error ("KeyError")
            | some y0 =>
              match castColumnFloat y0 with
              | .ok y1 =>
                  let idx := argsort y1
                  .ok (.step (some (.pie (take_idx x0 idx) (take_idx y1 idx))) [] [])
              | .error _ =>
                  .ok (.step none
                        [RenderError.type_mismatch en ("waarde") ("piechart")
                           layer.layer_name ycol (get_unique_types y0)] [])
    | some ChartVis.histogram =>
        match get_column gdf layer.x_data with
        | .error e => .error e
        | .ok x0 =>
          let x1 := match castColumnFloat x0 with | .ok c => c | .error _ => x0
          .ok (.step (some (.histo (sort_le value_le x1) layer.layer_name)) [] [])

/-- Fold the layers of one figure slot, accumulating traces, errors and
warnings, updating the axis titles and the figure title from each layer
(lines 1092-1104; a histogram forces the y title to frequentie).  The outer
none is the whole-callback no_update escape. -/
def fold_chart_layers (en : String) (all_data : List (String × ChartTable)) :
    List (String × ChartLayer) → ChartFigure → List RenderError → List RenderWarning →
    Except String (Option (ChartFigure × List RenderError × List RenderWarning))
  | [], fig, es, ws => .ok (some (fig, es, ws))
  | (_, layer) :: rest, fig, es, ws =>
    match process_chart_layer en all_data layer with
    | .error e => .error e
    | .ok .abort_no_update => .ok none
    | .ok (.step tr errs warns) =>
        let fig1 : ChartFigure :=
          ⟨fig.traces ++ (match tr with | some t => [t] | none => []),
           layer.x_axis,
           (if layer.visualisation_type = some ChartVis.histogram then some ("frequentie")
            else layer.y_axis),
           layer.figure_name⟩
        fold_chart_layers en all_data rest fig1 (es ++ errs) (ws ++ warns)

/-- Process one figure slot of update_figures (lines 973-1109): a slot with
no layers contributes no_update (none) for its figure, otherwise its layers
are folded over the empty figure. -/
def process_figure (figure : String)
    (ld : List (String × List (String × ChartLayer)))
    (all : List (String × ChartTable)) :
    Except String (Option (Option ChartFigure × List RenderError × List RenderWarning)) :=
  match ld.lookup figure with
  | none => .ok (some (none, [], []))
  | some layers =>
    match error_names_lookup figure with
    | none => .error ("KeyError")
    | some en =>
      match fold_chart_layers en all layers empty_figure [] [] with
      | .error e => .error e
      | .ok none => .ok none
      | .ok (some (fig, es, ws)) => .ok (some (some fig, es, ws))

/-- Result of the update_figures callback: the whole-callback no_update, or
one output per chart slot (none = no_update for that slot) plus the
accumulated diagnostics. -/
inductive FiguresResult where
  | no_update_all
  | outputs (fig1 fig2 : Option ChartFigure) (errors : List RenderError)
      (warnings : List RenderWarning)
deriving DecidableEq

/-- Embedding of update_figures (pagina_interactie_kaart.py lines 952-1118):
combine the user and real-time dataset stores, process the two chart slots in
order, and return both figures with the accumulated diagnostics - unless at
least one error was collected, in which case both figure outputs are
no_update and only the diagnostics are written (lines 1112-1113).  A missing
layer store is the whole-callback no_update of lines 969-970. -/
def update_figures (layer_data : Option (List (String × List (String × ChartLayer))))
    (all_data rt_data : List (String × ChartTable)) : Except String FiguresResult :=
  match layer_data with
  | none => .ok .no_update_all
  | some ld =>
    let all := combine_data_dicts all_data rt_data
    match process_figure ("extra_vis_1") ld all with
    | .error e => .error e
    | .ok none => .ok .no_update_all
    | .ok (some (o1, e1, w1)) =>
      match process_figure ("extra_vis_2") ld all with
      | .error e => .error e
      | .ok none => .ok .no_update_all
      | .ok (some (o2, e2, w2)) =>
        if e1 ++ e2 ≠ [] then .ok (.outputs none none (e1 ++ e2) (w1 ++ w2))
        else .ok (.outputs o1 o2 (e1 ++ e2) (w1 ++ w2))

/-- The serialized layer record written by save_layer (lines 909-923). -/
structure LayerRec where
  figure_name : Option String
  layer_name : String
  visualisation_type : Option String
  selected_dataset : Option String
  x_data : Option String
  x_axis : Option String
  y_data : Option String
  y_axis : Option String
  mode : Option String
  map_level : Option String
  map_data : Option String
  map_labels : Option String
  aggregate_method : Option String
  colormap : Option String
deriving DecidableEq

/-- A blocking commit error of save_layer, with the data of the message it
embeds (pagina_interactie_kaart.py lines 884-906). -/
inductive SaveError where
  | missing_x (figure : String)
  | missing_y (figure : String)
  | missing_pie_labels (figure : String)
  | missing_pie_values (figure : String)
  | missing_region_code (figure : String)
  | duplicate_layer_name (figure name : String)
deriving DecidableEq

/-- A non-blocking commit warning of save_layer (lines 879-892). -/
inductive SaveWarning where
  | unnamed_layer (figure name : String)
  | missing_x_axis (figure : String)
  | missing_y_axis (figure : String)
deriving DecidableEq

/-- The layer store: figure slot to layer name to layer record. -/
abbrev LayerStore := List (String × List (String × LayerRec))

/-- Embedding of the commit (button-quit) branch of save_layer
(pagina_interactie_kaart.py lines 866-932), with each pattern-matched control
already resolved to its value (none models both a missing control list and a
cleared value).  An empty layer name is replaced by the fixed placeholder
plus a warning; the chart slots validate their column and axis-title fields
per visualisation kind and the map slot its region-code column; a layer name
already present in the slot while the edit-mode selection is not that exact
name appends one duplicate error; the record is then written into the local
dict, but any collected error makes the callback return no_update (none) for
the store output, so the store itself is left unchanged (lines 925-932). -/
def save_layer (layer_data : Option LayerStore) (selected_fig : String)
    (selected_vis : Option String) (selected_data figure_name : Option String)
    (layer_name : String)
    (x_data x_axis y_data y_axis mode map_level map_data map_labels
      aggregate_method colormap : Option String)
    (add_or_edit : Option String) :
    Except String (Option LayerStore × List SaveError × List SaveWarning) :=
  match error_names_lookup selected_fig with
  | none => .error ("KeyError")
  | some en =>
    let ld0 := layer_data.getD []
    let ld1 := if (ld0.lookup selected_fig).isSome then ld0 else ld0 ++ [(selected_fig, [])]
    let name_string := if layer_name ≠ ("") then layer_name else ("Laag zonder naam")
    let w0 : List SaveWarning :=
      if layer_name ≠ ("") then [] else [SaveWarning.unnamed_layer en name_string]
    let chart_slot := selected_fig = ("extra_vis_1") ∨ selected_fig = ("extra_vis_2")
    let two_value_vis :=
      selected_vis = some ("scatter") ∨ selected_vis = some ("barchart")
        ∨ selected_vis = some ("grouped_barchart") ∨ selected_vis = some ("histogram")
        ∨ selected_vis = some ("grouped_histogram")
    let histogram_vis :=
      selected_vis = some ("histogram") ∨ selected_vis = some ("grouped_histogram")
    let e1 : List SaveError :=
      if chart_slot then
        (if two_value_vis then
          (if x_data = some ("") then [SaveError.missing_x en] else [])
          ++ (if ¬ histogram_vis then
                (if y_data = some ("") then [SaveError.missing_y en] else [])
              else [])
         else [])
        ++ (if selected_vis = some ("piechart") then
              (if x_data = some ("") then [SaveError.missing_pie_labels en] else [])
              ++ (if y_data = some ("") then [SaveError.missing_pie_values en] else [])
            else [])
      else
        (if map_labels = none then [SaveError.missing_region_code en] else [])
    let w1 : List SaveWarning :=
      if chart_slot then
        (if two_value_vis then
          (if x_axis = some ("") then [SaveWarning.missing_x_axis en] else [])
          ++ (if ¬ histogram_vis then
                (if y_axis = some ("") then [SaveWarning.missing_y_axis en] else [])
              else [])
         else [])
      else []
    let slot_layers := (ld1.lookup selected_fig).getD []
    let e2 : List SaveError :=
      if (slot_layers.lookup name_string).isSome ∧ add_or_edit ≠ some name_string then
        [SaveError.duplicate_layer_name en name_string]
      else []
    let rec_out : LayerRec :=
      ⟨figure_name, name_string, selected_vis, selected_data, x_data, x_axis, y_data,
       y_axis, mode, map_level, map_data, map_labels, aggregate_method, colormap⟩
    let ld2 := setKey ld1 selected_fig (setKey slot_layers name_string rec_out)
    let errs := e1 ++ e2
    let warns := w0 ++ w1
    if errs ≠ [] then .ok (none, errs, warns)
    else .ok (some ld2, errs, warns)

deriving instance DecidableEq for Except

/-! Helper lemmas about the dict operations. -/

theorem keysOf_cons {V : Type} (p : String × V) (rest : List (String × V)) :
    keysOf (p :: rest) = p.1 :: keysOf rest := rfl

theorem lookup_cons {V : Type} (a : String) (b : V) (rest : List (String × V)) (k : String) :
    ((a, b) :: rest).lookup k = if a = k then some b else rest.lookup k := by
  by_cases h : a = k
  · subst h
    simp [List.lookup]
  · have hb : (k == a) = false := beq_eq_false_iff_ne.mpr (Ne.symm h)
    simp [List.lookup, hb, h]

theorem lookup_setKey_self {V : Type} (d : List (String × V)) (k : String) (v : V) :
    (setKey d k v).lookup k = some v := by
  induction d with
  | nil => simp [setKey, lookup_cons]
  | cons p rest ih =>
      obtain ⟨a, b⟩ := p
      by_cases h : a = k
      · simp [setKey, h, lookup_cons]
      · simp [setKey, h, lookup_cons, ih]

theorem lookup_setKey_ne {V : Type} (d : List (String × V)) (k k2 : String) (v : V)
    (h : k2 ≠ k) : (setKey d k v).lookup k2 = d.lookup k2 := by
  induction d with
  | nil => simp [setKey, lookup_cons, Ne.symm h]
  | cons p rest ih =>
      obtain ⟨a, b⟩ := p
      by_cases hp : a = k
      · subst hp
        simp [setKey, lookup_cons, Ne.symm h, ih]
      · simp [setKey, hp, lookup_cons, ih]

theorem mem_keysOf_setKey {V : Type} (d : List (String × V)) (k k2 : String) (v : V) :
    k2 ∈ keysOf (setKey d k v) ↔ k2 = k ∨ k2 ∈ keysOf d := by
  induction d with
  | nil => simp [setKey, keysOf]
  | cons p rest ih =>
      obtain ⟨a, b⟩ := p
      by_cases hp : a = k
      · subst hp
        have hs : keysOf (setKey ((a, b) :: rest) a v) = a :: keysOf rest := by
          simp [setKey, keysOf]
        rw [hs]
        simp only [keysOf_cons, List.mem_cons]
        tauto
      · have hs : keysOf (setKey ((a, b) :: rest) k v) = a :: keysOf (setKey rest k v) := by
          simp [setKey, hp, keysOf]
        rw [hs]
        simp only [keysOf_cons, List.mem_cons, ih]
        tauto

theorem lookup_eq_none_of_not_mem {V : Type} (d : List (String × V)) (k : String)
    (h : k ∉ keysOf d) : d.lookup k = none := by
  induction d with
  | nil => simp [List.lookup]
  | cons p rest ih =>
      obtain ⟨a, b⟩ := p
      rw [keysOf_cons, List.mem_cons] at h
      push_neg at h
      rw [lookup_cons, if_neg (Ne.symm h.1)]
      exact ih h.2

/-- C10: combine_data_dicts(data1, data2) returns a dict whose key set is the
union of both key sets; every key of data2 takes data2's entry (so wherever
the user store and the real-time store are combined, a real-time dataset
shadows a user dataset of the same name), and every other key keeps data1's
entry. -/
theorem combine_data_dicts_spec {V : Type} :
    ∀ (data1 data2 : List (String × V)), (keysOf data2).Nodup →
      (∀ k, k ∈ keysOf (combine_data_dicts data1 data2)
            ↔ k ∈ keysOf data1 ∨ k ∈ keysOf data2)
      ∧ (∀ k v, data2.lookup k = some v
            → (combine_data_dicts data1 data2).lookup k = some v)
      ∧ (∀ k, data2.lookup k = none
            → (combine_data_dicts data1 data2).lookup k = data1.lookup k) := by
  intro data1 data2
  induction data2 generalizing data1 with
  | nil =>
      intro _
      refine ⟨by simp [combine_data_dicts, keysOf], ?_, ?_⟩
      · intro k v h
        simp [List.lookup] at h
      · intro k _
        rfl
  | cons p d2 ih =>
      intro hnd
      obtain ⟨a, b⟩ := p
      rw [keysOf_cons, List.nodup_cons] at hnd
      have hstep : combine_data_dicts data1 ((a, b) :: d2)
          = combine_data_dicts (setKey data1 a b) d2 := rfl
      obtain ⟨ih1, ih2, ih3⟩ := ih (setKey data1 a b) hnd.2
      refine ⟨?_, ?_, ?_⟩
      · intro k
        rw [hstep, ih1 k, mem_keysOf_setKey, keysOf_cons, List.mem_cons]
        tauto
      · intro k v h
        rw [hstep]
        rw [lookup_cons] at h
        by_cases hk : a = k
        · rw [if_pos hk] at h
          cases h
          subst hk
          have hnone : d2.lookup a = none := lookup_eq_none_of_not_mem d2 a hnd.1
          rw [ih3 a hnone, lookup_setKey_self]
        · rw [if_neg hk] at h
          exact ih2 k v h
      · intro k h
        rw [lookup_cons] at h
        by_cases hk : a = k
        · rw [if_pos hk] at h
          cases h
        · rw [if_neg hk] at h
          rw [hstep, ih3 k h, lookup_setKey_ne _ _ _ _ (Ne.symm hk)]

/-- Witness for C10 at a concrete pair of stores: the real-time entry under
the shared key mjs shadows the user entry. -/
theorem combine_data_dicts_spec_witness :
    (keysOf ([(("mjs"), 5), (("b"), 7)] : List (String × Nat))).Nodup
    ∧ (combine_data_dicts ([(("a"), 1), (("mjs"), 2)])
        ([(("mjs"), 5), (("b"), 7)])).lookup ("mjs") = some 5 :=
  ⟨by decide, (combine_data_dicts_spec _ _ (by decide)).2.1 _ 5 (by decide)⟩

/-- C9: the claim that the standard dataset (meet je stad) can never be
deleted is contradicted by the code: standard_datasets is never consulted by
the delete path, the deletable-datasets dropdown offers every key of the
combined stores including meet je stad, and confirming the deletion pops the
entry from the real-time store, which afterwards no longer contains it. -/
theorem standard_dataset_deletable_code_bug :
    ("meet je stad") ∈ standard_datasets
    ∧ ("meet je stad") ∈ change_deletable_datasets ([(("user data"), 0)])
        ([(("meet je stad"), 1)])
    ∧ load_real_time_data_delete ([(("meet je stad"), 1)]) ("meet je stad")
        = .ok ([] : List (String × Nat))
    ∧ ("meet je stad") ∉ keysOf ([] : List (String × Nat)) :=
  ⟨by decide, by decide, by decide, by decide⟩

/-- C2: the claim that the category shown for a region with several distinct
categories is the most frequent one is contradicted by the code: for region R
with category values a, a, b the most frequent category is a (two rows against
one), but the double groupby of add_categorical_level_choroplethmapbox keeps
the column-wise maximum b.  The warning of _add_map_layers does fire on this
input (its own text even promises the most frequent category), so the code
contradicts its own message. -/
theorem categorical_map_category_code_bug :
    add_categorical_level_choroplethmapbox_categories
        ([(("R"), ("a")), (("R"), ("a")), (("R"), ("b"))]) = [(("R"), ("b"))]
    ∧ ([(("R"), ("a")), (("R"), ("a")), (("R"), ("b"))] : List (String × String)).count
        ((("R"), ("a"))) = 2
    ∧ ([(("R"), ("a")), (("R"), ("a")), (("R"), ("b"))] : List (String × String)).count
        ((("R"), ("b"))) = 1
    ∧ (("b") : String) ≠ ("a")
    ∧ multi_category_warning_condition
        ([Value.str ("R"), Value.str ("R"), Value.str ("R")]) = true :=
  ⟨by decide, by decide, by decide, by decide, by decide⟩

/-! Helper lemmas for the delimiter guesser. -/

theorem mem_insert_by_count (x a : Char × Nat) (l : List (Char × Nat)) :
    a ∈ insert_by_count x l ↔ a = x ∨ a ∈ l := by
  induction l with
  | nil => simp [insert_by_count]
  | cons y ys ih =>
      by_cases h : y.2 ≤ x.2
      · simp [insert_by_count, h]
      · simp [insert_by_count, h, ih]
        tauto

theorem mem_sort_by_count_desc (a : Char × Nat) (l : List (Char × Nat)) :
    a ∈ sort_by_count_desc l ↔ a ∈ l := by
  induction l with
  | nil => simp [sort_by_count_desc]
  | cons x xs ih =>
      simp [sort_by_count_desc, mem_insert_by_count, ih]

theorem mem_fold_dedup (l : List Char) (acc : List Char) (a : Char) :
    a ∈ l.foldl (fun acc c => if c ∈ acc then acc else acc ++ [c]) acc
      ↔ a ∈ acc ∨ a ∈ l := by
  induction l generalizing acc with
  | nil => simp
  | cons c cs ih =>
      by_cases h : c ∈ acc
      · rw [List.foldl_cons, if_pos h, ih, List.mem_cons]
        constructor
        · tauto
        · rintro (ha | ha | ha)
          · tauto
          · subst ha
            tauto
          · tauto
      · rw [List.foldl_cons, if_neg h, ih, List.mem_cons]
        simp [List.mem_append]
        tauto

theorem mem_first_occurrence_dedup (l : List Char) (a : Char) :
    a ∈ first_occurrence_dedup l ↔ a ∈ l := by
  rw [first_occurrence_dedup, mem_fold_dedup]
  simp

theorem mem_most_common (l : List Char) (p : Char × Nat) :
    p ∈ most_common l ↔ p.1 ∈ l ∧ p.2 = l.count p.1 := by
  rw [most_common, mem_sort_by_count_desc, List.mem_map]
  constructor
  · rintro ⟨c, hc, hcp⟩
    rw [mem_first_occurrence_dedup] at hc
    cases hcp
    exact ⟨hc, rfl⟩
  · rintro ⟨h1, h2⟩
    refine ⟨p.1, ?_, ?_⟩
    · rw [mem_first_occurrence_dedup]
      exact h1
    · rw [← h2]

/-- C8: the delimiter guesser.  First part: when the known delimiter d occurs
in the first line, is not a letter, digit or newline, its counts in the two
lines match exactly, and it is the only such character of the first line,
then _get_sep infers d (and no warning is raised).  Second part: when no
non-alphanumeric, non-newline character of the first line has an exactly
matching count in the second line, _get_sep falls back to tab and warns. -/
theorem get_sep_spec :
    (∀ (l1 l2 : List Char) (d : Char),
        d ∈ l1 → char_skip d = false → l2.count d = l1.count d →
        (∀ c, c ∈ l1 → char_skip c = false → l2.count c = l1.count c → c = d) →
        get_sep l1 l2 = (d, false))
    ∧ (∀ (l1 l2 : List Char),
        (∀ c, c ∈ l1 → char_skip c = false → l2.count c ≠ l1.count c) →
        get_sep l1 l2 = ('\t', true)) := by
  constructor
  · intro l1 l2 d hd hskip hcount huniq
    have hmem : (d, l1.count d) ∈ most_common l1 := by
      rw [mem_most_common]
      exact ⟨hd, rfl⟩
    have hpred : (fun p : Char × Nat =>
        (!(char_skip p.1)) && (l2.count p.1 == p.2)) (d, l1.count d) = true := by
      simp [hskip, hcount]
    have hsome : ((most_common l1).find? (fun p =>
        (!(char_skip p.1)) && (l2.count p.1 == p.2))).isSome := by
      rw [List.find?_isSome]
      exact ⟨(d, l1.count d), hmem, hpred⟩
    obtain ⟨a, ha⟩ := Option.isSome_iff_exists.mp hsome
    have hpa := List.find?_some ha
    have hma := List.mem_of_find?_eq_some ha
    rw [mem_most_common] at hma
    simp only [Bool.and_eq_true, Bool.not_eq_eq_eq_not, Bool.not_true, beq_iff_eq] at hpa
    have hcd : a.1 = d := by
      refine huniq a.1 hma.1 hpa.1 ?_
      rw [← hma.2]
      exact hpa.2
    rw [get_sep, ha]
    simp [hcd]
  · intro l1 l2 hno
    have hnone : (most_common l1).find? (fun p =>
        (!(char_skip p.1)) && (l2.count p.1 == p.2)) = none := by
      rw [List.find?_eq_none]
      intro p hp
      rw [mem_most_common] at hp
      simp only [Bool.and_eq_true, Bool.not_eq_eq_eq_not, Bool.not_true, beq_iff_eq]
      rintro ⟨h1, h2⟩
      exact hno p.1 hp.1 h1 (by rw [hp.2] at h2; exact h2)
    rw [get_sep, hnone]

/-- Witness for C8 on the two lines kol1,kol2 and 7,8: the comma is the only
non-alphanumeric character with matching counts, and is inferred; on the pair
of lines ab and cd no character qualifies and the tab fallback fires. -/
theorem get_sep_spec_witness :
    (((",").data ≠ []) ∧ get_sep (("kol1,kol2").data) (("7,8").data) = (',', false))
    ∧ get_sep (("ab").data) (("cd,x").data) = ('\t', true) :=
  ⟨⟨by decide,
    get_sep_spec.1 (("kol1,kol2").data) (("7,8").data) ',' (by decide) (by decide)
      (by decide) (by decide)⟩,
   get_sep_spec.2 (("ab").data) (("cd,x").data) (by decide)⟩

/-! Helper lemmas for the group-by reducers. -/

theorem count_cell_of_no_null (l : List Value) (h : ∀ v ∈ l, v ≠ Value.null) :
    count_cell l = Value.num ((l.length : ℚ)) := by
  rw [count_cell]
  have hf : l.filter (fun v => v ≠ Value.null) = l :=
    List.filter_eq_self.mpr (fun a ha => by simpa using h a ha)
  rw [hf]

theorem castColumnFloat_of_numeric (col : List Value) (h : numeric_dtype col = true) :
    castColumnFloat col = .ok col := by
  induction col with
  | nil => rfl
  | cons v vs ih =>
      rw [numeric_dtype, List.all_cons, Bool.and_eq_true] at h
      have hv : castCell v = .ok v := by
        cases v with
        | num q => rfl
        | str s => simp at h
        | null => rfl
      rw [castColumnFloat, hv, ih (by rw [numeric_dtype]; exact h.2)]

theorem zip_map_fst_snd {α β : Type} (l : List (α × β)) :
    (l.map (·.1)).zip (l.map (·.2)) = l := by
  induction l with
  | nil => rfl
  | cons p rest ih => simp [ih]

/-- C4 (amended): the frequency reducer yields one output row per distinct
group key (the key list is duplicate-free and carries exactly the keys that
occur), and the target value per group is the number of rows of that group
whenever the target column has no missing cells - in particular for any
entirely non-numeric target column.  (With missing cells pandas
groupby().count() counts only the non-missing cells, see the counterexample.) -/
theorem group_values_frequency_spec :
    ∀ (rows : List (String × Value)),
      (∀ r ∈ rows, r.2 ≠ Value.null) →
      (group_keys_of rows).Nodup
      ∧ (∀ k, k ∈ group_keys_of rows ↔ k ∈ rows.map (·.1))
      ∧ group_values rows ("frequency")
          = .ok ⟨group_keys_of rows,
                 some ((group_keys_of rows).map
                   (fun k => Value.num (((group_rows rows k).length : ℚ))))⟩ := by
  intro rows h
  refine ⟨List.nodup_dedup _, fun k => List.mem_dedup, ?_⟩
  have hbranch : group_values rows ("frequency") = .ok (grouped_agg rows count_cell) := by
    simp [group_values]
  rw [hbranch, grouped_agg]
  have hmap : (group_keys_of rows).map (fun k => count_cell ((group_rows rows k).map (·.2)))
      = (group_keys_of rows).map (fun k => Value.num (((group_rows rows k).length : ℚ))) := by
    refine List.map_congr_left (fun k _ => ?_)
    have hno : ∀ v ∈ (group_rows rows k).map (·.2), v ≠ Value.null := by
      intro v hv
      rw [List.mem_map] at hv
      obtain ⟨r, hr, hrv⟩ := hv
      have hrr : r ∈ rows := List.mem_of_mem_filter hr
      rw [← hrv]
      exact h r hrr
    rw [count_cell_of_no_null _ hno, List.length_map]
  rw [hmap]

/-- Witness for C4 at a concrete table with a non-numeric target column:
two rows of group a and one of group b give frequencies 2 and 1. -/
theorem group_values_frequency_spec_witness :
    (∀ r ∈ ([(("a"), Value.num 1), (("a"), Value.str ("zz")), (("b"), Value.str ("w"))] :
        List (String × Value)), r.2 ≠ Value.null)
    ∧ group_values ([(("a"), Value.num 1), (("a"), Value.str ("zz")),
          (("b"), Value.str ("w"))]) ("frequency")
        = .ok ⟨[("a"), ("b")], some [Value.num 2, Value.num 1]⟩ :=
  ⟨by decide, by
    have hx := (group_values_frequency_spec
      ([(("a"), Value.num 1), (("a"), Value.str ("zz")), (("b"), Value.str ("w"))])
      (by decide)).2.2
    rw [hx]
    decide⟩

/-- C4 counterexample: the claim as stated says the frequency value equals
the number of rows of the group regardless of the target column's content,
but with a missing target cell (NaN / None) pandas groupby().count() counts
only the non-missing cells: a group of two rows, one of them null, reports 1. -/
theorem group_values_frequency_counterexample :
    group_values ([(("a"), Value.num 1), (("a"), Value.null)]) ("frequency")
      = .ok ⟨[("a")], some [Value.num 1]⟩
    ∧ (group_rows ([(("a"), Value.num 1), (("a"), Value.null)]) ("a")).length = 2
    ∧ Value.num 1 ≠ Value.num 2 :=
  ⟨by decide, by decide, by decide⟩

/-- C5 (amended): a group_method outside mean/max/min/sum/frequency falls
into the final else branch, a groupby().mean() WITHOUT the float cast of the
target column; the result coincides with reducer mean exactly when the target
column already has a numeric dtype (only numbers and missing cells).  For a
non-numeric target column the two differ: mean casts and raises a ValueError
on a non-coercible string, while the fallback silently drops the column (see
the counterexample). -/
theorem group_values_unknown_fallback :
    ∀ (rows : List (String × Value)) (m : String),
      m ≠ ("mean") → m ≠ ("max") → m ≠ ("min") → m ≠ ("sum") → m ≠ ("frequency") →
      numeric_dtype (rows.map (·.2)) = true →
      group_values rows m = group_values rows ("mean") := by
  intro rows m h1 h2 h3 h4 h5 h6
  have hlhs : group_values rows m = .ok (grouped_agg rows mean_cell) := by
    rw [group_values, if_neg h1, if_neg h2, if_neg h3, if_neg h4, if_neg h5, if_pos h6]
  have hrhs : group_values rows ("mean") = .ok (grouped_agg rows mean_cell) := by
    rw [group_values, if_pos rfl, castColumnFloat_of_numeric _ h6]
    simp [zip_map_fst_snd]
  rw [hlhs, hrhs]

/-- Witness for C5 at a concrete numeric table and the unknown reducer
median: the fallback equals reducer mean. -/
theorem group_values_unknown_fallback_witness :
    numeric_dtype (([(("a"), Value.num 1), (("a"), Value.num 2)] :
        List (String × Value)).map (·.2)) = true
    ∧ group_values ([(("a"), Value.num 1), (("a"), Value.num 2)]) ("median")
        = group_values ([(("a"), Value.num 1), (("a"), Value.num 2)]) ("mean") :=
  ⟨by decide,
   group_values_unknown_fallback ([(("a"), Value.num 1), (("a"), Value.num 2)]) ("median")
     (by decide) (by decide) (by decide) (by decide) (by decide) (by decide)⟩

/-- C5 counterexample: on a table whose target column holds the non-numeric
string x, the unknown reducer median returns the grouped frame with the
target column dropped, while reducer mean raises the float-cast ValueError -
the fallback result does NOT equal the mean result for every input. -/
theorem group_values_unknown_fallback_counterexample :
    group_values ([(("a"), Value.str ("x"))]) ("median") = .ok ⟨[("a")], none⟩
    ∧ group_values ([(("a"), Value.str ("x"))]) ("mean")
        = .error (("could not convert string to float: x"))
    ∧ (Except.ok (⟨[("a")], none⟩ : GroupedOut) : Except String GroupedOut)
        ≠ .error (("could not convert string to float: x")) :=
  ⟨by decide, by decide, by decide⟩

/-! Helper lemmas for the spatial join. -/

theorem indexOf?_eq_none_of_not_mem (l : List String) (c : String) (h : c ∉ l) :
    l.indexOf? c = none := by
  rw [List.indexOf?_eq_none_iff]
  intro x hx hbeq
  rw [beq_iff_eq] at hbeq
  exact h (hbeq ▸ hx)

theorem zipWith_map_right_same {α γ δ : Type} (f : α → γ → δ) (v : α → γ) (l : List α) :
    List.zipWith f l (l.map v) = l.map (fun a => f a (v a)) := by
  induction l with
  | nil => rfl
  | cons x xs ih => simp [ih]

theorem zipWith_map_same {α β γ δ : Type} (f : β → γ → δ) (u : α → β) (v : α → γ)
    (l : List α) :
    List.zipWith f (l.map u) (l.map v) = l.map (fun a => f (u a) (v a)) := by
  induction l with
  | nil => rfl
  | cons x xs ih => simp [ih]

theorem set_column_not_mem (t : GeoTable) (c : String) (vals : List Value)
    (h : c ∉ t.cols) :
    set_column t c vals
      = ⟨t.cols ++ [c], List.zipWith (fun r v =>
          (⟨r.geom, r.cells ++ [v]⟩ : GeoRow)) t.rows vals⟩ := by
  rw [set_column, indexOf?_eq_none_of_not_mem _ _ h]

/-- C1 (amended): for a chosen level whose code and name columns are not yet
present in the points table, aggregate_point_data adds exactly those two
columns at the right edge; every row receives the code/name pair of the first
shape (in shape-set order) whose polygon contains its point, so a row whose
point lies strictly inside exactly one polygon receives that polygon's code
and name, and a row whose point lies inside no polygon receives the sentinel
pair (onbekend, onbekend) rather than failing.  (When the table already
carries a column of the same name, pandas assignment overwrites it in place
instead of adding a column - see the counterexample.) -/
theorem aggregate_point_data_spec :
    ∀ (t : GeoTable) (shapes : List Shape) (level : String) (code : String),
      get_code level = some code →
      code ∉ t.cols →
      (code.dropRight 5 ++ ("_NAAM")) ∉ t.cols →
      ∃ out, aggregate_point_data t shapes level = some out
        ∧ out.cols = t.cols ++ [code, code.dropRight 5 ++ ("_NAAM")]
        ∧ out.rows = t.rows.map (fun r =>
            ⟨r.geom, r.cells ++ [Value.str (add_level_column r.geom shapes).1,
                                 Value.str (add_level_column r.geom shapes).2]⟩)
        ∧ (∀ punt s, shapes.filter (fun sh => sh.contains punt) = [s] →
              add_level_column punt shapes = (s.code, s.naam))
        ∧ (∀ punt, shapes.filter (fun sh => sh.contains punt) = [] →
              add_level_column punt shapes = (("onbekend"), ("onbekend"))) := by
  intro t shapes level code hget hc hn
  have hne : (code.dropRight 5 ++ ("_NAAM")) ≠ code := by
    rw [get_code] at hget
    by_cases h1 : level = ("Buurt")
    · rw [if_pos h1] at hget
      cases hget
      decide
    · rw [if_neg h1] at hget
      by_cases h2 : level = ("Wijk")
      · rw [if_pos h2] at hget
        cases hget
        decide
      · rw [if_neg h2] at hget
        by_cases h3 : level = ("Gemeente")
        · rw [if_pos h3] at hget
          cases hget
          decide
        · rw [if_neg h3] at hget
          cases hget
  set naam := code.dropRight 5 ++ ("_NAAM") with hnaam
  have hn1 : naam ∉ t.cols ++ [code] := by
    rw [List.mem_append, List.mem_singleton]
    rintro (h | h)
    · exact hn h
    · exact hne h
  have hv1 : ((t.rows.map (fun r => add_level_column r.geom shapes)).map
      (fun p => Value.str p.1))
      = t.rows.map (fun r => Value.str (add_level_column r.geom shapes).1) := by
    rw [List.map_map]
    rfl
  have hv2 : ((t.rows.map (fun r => add_level_column r.geom shapes)).map
      (fun p => Value.str p.2))
      = t.rows.map (fun r => Value.str (add_level_column r.geom shapes).2) := by
    rw [List.map_map]
    rfl
  have key : aggregate_point_data t shapes level
      = some ⟨t.cols ++ [code, naam], t.rows.map (fun r =>
          (⟨r.geom, r.cells ++ [Value.str (add_level_column r.geom shapes).1,
             Value.str (add_level_column r.geom shapes).2]⟩ : GeoRow))⟩ := by
    simp only [aggregate_point_data, hget, Option.map_some']
    rw [hv1, hv2]
    rw [set_column_not_mem t code _ hc]
    rw [set_column_not_mem _ naam _ hn1]
    rw [zipWith_map_right_same, zipWith_map_same]
    simp [List.append_assoc]
  refine ⟨_, key, rfl, rfl, ?_, ?_⟩
  · intro punt s hf
    rw [add_level_column, hf]
  · intro punt hf
    rw [add_level_column, hf]

/-- Witness for C1: a table with one plain column and two rectangle shapes;
the first row's point lies only in the first shape and gets its code and
name, the second row's point lies in no shape and gets the sentinel pair. -/
theorem aggregate_point_data_spec_witness :
    get_code ("Buurt") = some ("BU_CODE")
    ∧ (("BU_CODE") ∉ [("temp")])
    ∧ ((("BU_CODE").dropRight 5 ++ ("_NAAM")) ∉ [("temp")])
    ∧ ∃ out, aggregate_point_data (⟨[("temp")], [⟨(1, 1), [Value.num 7]⟩,
          ⟨(5, 5), [Value.num 8]⟩]⟩)
        ([⟨("BU1"), ("Noord"), fun p => decide (p.1 ≤ 2)⟩]) ("Buurt") = some out
        ∧ out.cols = [("temp")] ++ [("BU_CODE"), ("BU_CODE").dropRight 5 ++ ("_NAAM")]
        ∧ out.rows = ([⟨(1, 1), [Value.num 7]⟩, ⟨(5, 5), [Value.num 8]⟩] :
            List GeoRow).map (fun r =>
            ⟨r.geom, r.cells ++ [Value.str (add_level_column r.geom
                ([⟨("BU1"), ("Noord"), fun p => decide (p.1 ≤ 2)⟩])).1,
              Value.str (add_level_column r.geom
                ([⟨("BU1"), ("Noord"), fun p => decide (p.1 ≤ 2)⟩])).2]⟩)
        ∧ (∀ punt s, ([⟨("BU1"), ("Noord"), fun p => decide (p.1 ≤ 2)⟩] :
              List Shape).filter (fun sh => sh.contains punt) = [s] →
            add_level_column punt ([⟨("BU1"), ("Noord"), fun p => decide (p.1 ≤ 2)⟩])
              = (s.code, s.naam))
        ∧ (∀ punt, ([⟨("BU1"), ("Noord"), fun p => decide (p.1 ≤ 2)⟩] :
              List Shape).filter (fun sh => sh.contains punt) = [] →
            add_level_column punt ([⟨("BU1"), ("Noord"), fun p => decide (p.1 ≤ 2)⟩])
              = (("onbekend"), ("onbekend"))) :=
  ⟨by decide, by decide, by decide,
   aggregate_point_data_spec (⟨[("temp")], [⟨(1, 1), [Value.num 7]⟩,
       ⟨(5, 5), [Value.num 8]⟩]⟩)
     ([⟨("BU1"), ("Noord"), fun p => decide (p.1 ≤ 2)⟩]) ("Buurt") ("BU_CODE")
     (by decide) (by decide) (by decide)⟩

/-- C1 counterexample: the claim as stated says the spatial join adds exactly
two columns to EVERY points table, but on a table that already carries the
BU_CODE and BU_NAAM columns (as any re-aggregated dataset does) the pandas
column assignments overwrite in place and the column list is unchanged. -/
theorem aggregate_point_data_counterexample :
    (aggregate_point_data (⟨[("BU_CODE"), ("BU_NAAM")],
        [⟨(0, 0), [Value.str ("x"), Value.str ("y")]⟩]⟩) [] ("Buurt")).map GeoTable.cols
      = some [("BU_CODE"), ("BU_NAAM")]
    ∧ ([("BU_CODE"), ("BU_NAAM")] : List String).length
        ≠ ([("BU_CODE"), ("BU_NAAM")] : List String).length + 2 :=
  ⟨by decide, by decide⟩

/-- C7 (amended): the region-code column check that _add_map_layers really
performs rejects a column exactly when no cell is a string, or when NO cell
carries the expected 2-letter code start, or when no cell has length 10 AND
none has length 8 AND none has length 6 (non-string cells count as
mismatches); a column rejected by this check makes the layer skip with one
blocking code_column error.  (The claim's all-cells version of the check is
refuted by the counterexample: one good code lets arbitrary garbage pass.) -/
theorem region_code_validation_spec :
    (∀ (col : List Value) (cs : String),
        region_code_validation_fails col cs = true
          ↔ ((∀ v ∈ col, is_str v = false)
             ∨ (∀ v ∈ col, first_two v ≠ some cs)
             ∨ ((∀ v ∈ col, str_len v ≠ some 10) ∧ (∀ v ∈ col, str_len v ≠ some 8)
                ∧ (∀ v ∈ col, str_len v ≠ some 6))))
    ∧ (∀ (figure_level : String) (rows : List (Value × Value)) (layer : MapLayer)
          (cs : String),
        layer.map_level = figure_level →
        level_code_start layer.map_level = some cs →
        region_code_validation_fails
            ((rows.filter (fun r => r.1 ≠ Value.str ("onbekend"))).map (·.1)) cs = true →
        process_map_layer figure_level rows layer
          = .ok (none, [RenderError.code_column (("Kaart visualisatie"))
              layer.selected_dataset layer.map_labels layer.map_level], [])) := by
  constructor
  · intro col cs
    rw [region_code_validation_fails]
    by_cases hany : col.any is_str = true
    · rw [if_pos hany]
      rw [List.any_eq_true] at hany
      obtain ⟨w, hw, hws⟩ := hany
      simp only [Bool.or_eq_true, Bool.and_eq_true, List.all_eq_true,
        Bool.not_eq_eq_eq_not, Bool.not_true, beq_eq_false_iff_ne]
      constructor
      · tauto
      · rintro (h | h)
        · exact absurd (h w hw) (by simp [hws])
        · tauto
    · rw [if_neg hany]
      simp only [true_iff]
      left
      rw [List.any_eq_true] at hany
      push_neg at hany
      intro v hv
      exact Bool.eq_false_iff.mpr (hany v hv)
  · intro figure_level rows layer cs h1 h2 h3
    rw [process_map_layer]
    rw [if_neg (by simp [h1])]
    rw [h2]
    simp only [h3, if_pos]

/-- Witness for C7 at a concrete rejected column: a label column of plain
numbers has no string cell, the actual check rejects it, and the layer is
skipped with exactly the one blocking code_column error. -/
theorem region_code_validation_spec_witness :
    ((⟨("data2"), ("laag2"), some ("choroplethmapbox"), ("Buurt"), ("kolom"), ("codes"),
        some ("mean")⟩ : MapLayer).map_level = ("Buurt"))
    ∧ level_code_start ("Buurt") = some ("BU")
    ∧ region_code_validation_fails ((([((Value.num 3), (Value.num 1))] :
          List (Value × Value)).filter (fun r => r.1 ≠ Value.str ("onbekend"))).map (·.1))
        ("BU") = true
    ∧ process_map_layer ("Buurt") ([((Value.num 3), (Value.num 1))])
        (⟨("data2"), ("laag2"), some ("choroplethmapbox"), ("Buurt"), ("kolom"), ("codes"),
          some ("mean")⟩)
        = .ok (none, [RenderError.code_column (("Kaart visualisatie")) ("data2") ("codes")
            ("Buurt")], []) :=
  ⟨by decide, by decide, by decide,
   region_code_validation_spec.2 ("Buurt") ([((Value.num 3), (Value.num 1))])
     (⟨("data2"), ("laag2"), some ("choroplethmapbox"), ("Buurt"), ("kolom"), ("codes"),
       some ("mean")⟩) ("BU") (by decide) (by decide) (by decide)⟩

/-- C7 counterexample: a region-code column holding one well-formed Buurt
code and the garbage string XX violates the claimed validation (its cells
neither all share the BU code start nor all share one of the lengths
10/8/6), yet the real check passes it and the layer is rendered without
any blocking error instead of being skipped. -/
theorem region_code_validation_counterexample :
    (([Value.str ("BU12345678"), Value.str ("XX")] : List Value)).all
        (fun v => first_two v == some ("BU")) = false
    ∧ (([Value.str ("BU12345678"), Value.str ("XX")] : List Value)).all
        (fun v => (str_len v == some 10) || (str_len v == some 8)
          || (str_len v == some 6)) = false
    ∧ region_code_validation_fails ([Value.str ("BU12345678"), Value.str ("XX")]) ("BU")
        = false
    ∧ process_map_layer ("Buurt")
        ([((Value.str ("BU12345678")), (Value.num 1)), ((Value.str ("XX")), (Value.num 2))])
        (⟨("data1"), ("laag1"), some ("choroplethmapbox"), ("Buurt"), ("kolom"), ("codes"),
          some ("mean")⟩)
        = .ok (some (MapTrace.choropleth ("laag1")), [], []) :=
  ⟨by decide, by decide, by decide, by decide⟩

/-- C6 counterexample: a committed scatter layer whose y_data column holds
the non-coercible strings p and q is NOT rejected: the cast ValueError is
swallowed (the except clause of lines 1004-1006 just passes), the trace is
rendered with the string values reordered by the sorted x column, the figure
output is updated rather than no-update, and the diagnostics carry no error
at all - contradicting the claimed no-update plus one TypeMismatch error. -/
theorem update_figures_scatter_counterexample :
    (castColumnFloat ([Value.str ("p"), Value.str ("q")])).toOption = none
    ∧ update_figures
        (some [(("extra_vis_1"),
          [(("laag1"), ⟨some ("titel"), ("laag1"), some ChartVis.scatter, ("ds"),
             some ("a"), some ("x"), some ("b"), some ("y")⟩)])])
        ([(("ds"), [(("a"), [Value.num 2, Value.num 1]),
           (("b"), [Value.str ("p"), Value.str ("q")])])]) []
      = .ok (.outputs
          (some ⟨[ChartTrace.scatter [Value.num 1, Value.num 2]
              [Value.str ("q"), Value.str ("p")] ("laag1")],
            some ("x"), some ("y"), some ("titel")⟩)
          none [] []) :=
  ⟨by decide, by decide⟩

/-- C6 (amended): the no-update-plus-TypeMismatch behaviour the claim states
for scatter layers belongs to the barchart (and piechart) branch: for every
committed barchart layer whose y_data column cannot be coerced to float, the
chart render writes no-update for BOTH chart figures and the diagnostics
carry exactly one type_mismatch error naming the offending column and its
observed types.  A scatter layer whose y column fails the cast is instead
rendered with the strings kept (see the counterexample). -/
theorem update_figures_barchart_type_mismatch :
    ∀ (xs0 ys0 : List Value) (xc yc ds lname : String) (xt yt ft : Option String)
      (msg : String),
      xc ≠ yc →
      castColumnFloat ys0 = .error msg →
      ∃ ws, update_figures
          (some [(("extra_vis_1"), [(lname, ⟨ft, lname, some ChartVis.barchart, ds,
              some xc, xt, some yc, yt⟩)])])
          ([(ds, [(xc, xs0), (yc, ys0)])]) []
        = .ok (.outputs none none
            [RenderError.type_mismatch (("Grafiek 1")) ("y") ("barchart") lname yc
              (get_unique_types ys0)] ws) := by
  intro xs0 ys0 xc yc ds lname xt yt ft msg hxy hcast
  have hyx : (yc == xc) = false := beq_eq_false_iff_ne.mpr (Ne.symm hxy)
  have hv12 : (("extra_vis_2") == ("extra_vis_1")) = false := by decide
  have hlook_ds : ([(ds, [(xc, xs0), (yc, ys0)])] : List (String × ChartTable)).lookup ds
      = some [(xc, xs0), (yc, ys0)] := by
    simp [List.lookup]
  have hlook_x : ([(xc, xs0), (yc, ys0)] : ChartTable).lookup xc = some xs0 := by
    simp [List.lookup]
  have hlook_y : ([(xc, xs0), (yc, ys0)] : ChartTable).lookup yc = some ys0 := by
    simp [List.lookup, hyx]
  have hstep : process_chart_layer (("Grafiek 1")) ([(ds, [(xc, xs0), (yc, ys0)])])
      (⟨ft, lname, some ChartVis.barchart, ds, some xc, xt, some yc, yt⟩)
      = .ok (.step none
          [RenderError.type_mismatch (("Grafiek 1")) ("y") ("barchart") lname yc
            (get_unique_types ys0)]
          (if (take_idx xs0 (argsort xs0)).dedup.length ≠ (take_idx xs0 (argsort xs0)).length
           then [RenderWarning.duplicate_x ("Grafiek 1")] else [])) := by
    rw [process_chart_layer, hlook_ds]
    simp only [get_column, hlook_x, hlook_y, hcast]
  have hld1 : ([(("extra_vis_1"), [(lname, (⟨ft, lname, some ChartVis.barchart, ds,
      some xc, xt, some yc, yt⟩ : ChartLayer))])]).lookup ("extra_vis_1")
      = some [(lname, (⟨ft, lname, some ChartVis.barchart, ds,
          some xc, xt, some yc, yt⟩ : ChartLayer))] := by
    simp [List.lookup]
  have hld2 : ([(("extra_vis_1"), [(lname, (⟨ft, lname, some ChartVis.barchart, ds,
      some xc, xt, some yc, yt⟩ : ChartLayer))])]).lookup ("extra_vis_2") = none := by
    simp [List.lookup, hv12]
  have hfig1 : process_figure ("extra_vis_1")
      ([(("extra_vis_1"), [(lname, (⟨ft, lname, some ChartVis.barchart, ds,
          some xc, xt, some yc, yt⟩ : ChartLayer))])])
      ([(ds, [(xc, xs0), (yc, ys0)])])
      = .ok (some (some ⟨[], xt, yt, ft⟩,
          [RenderError.type_mismatch (("Grafiek 1")) ("y") ("barchart") lname yc
            (get_unique_types ys0)],
          (if (take_idx xs0 (argsort xs0)).dedup.length
              ≠ (take_idx xs0 (argsort xs0)).length
           then [RenderWarning.duplicate_x ("Grafiek 1")] else []))) := by
    rw [process_figure, hld1]
    simp only [error_names_lookup, if_pos]
    rw [fold_chart_layers, hstep]
    simp [fold_chart_layers, empty_figure]
  have hfig2 : process_figure ("extra_vis_2")
      ([(("extra_vis_1"), [(lname, (⟨ft, lname, some ChartVis.barchart, ds,
          some xc, xt, some yc, yt⟩ : ChartLayer))])])
      ([(ds, [(xc, xs0), (yc, ys0)])])
      = .ok (some (none, [], [])) := by
    rw [process_figure, hld2]
  have hcomb : combine_data_dicts ([(ds, [(xc, xs0), (yc, ys0)])])
      ([] : List (String × ChartTable)) = [(ds, [(xc, xs0), (yc, ys0)])] := rfl
  simp only [update_figures, hcomb, hfig1, hfig2]
  rw [if_pos (by simp)]
  exact ⟨_, rfl⟩

/-- Witness for C6 at a concrete barchart layer whose y column holds the
non-coercible string w: both chart outputs are no-update and the diagnostics
carry the one type_mismatch error. -/
theorem update_figures_barchart_type_mismatch_witness :
    (("a") : String) ≠ ("b")
    ∧ castColumnFloat ([Value.str ("w")])
        = .error (("could not convert string to float: w"))
    ∧ ∃ ws, update_figures
        (some [(("extra_vis_1"), [(("laag2"), ⟨some ("titel"), ("laag2"),
            some ChartVis.barchart, ("ds"), some ("a"), some ("x"), some ("b"),
            some ("y")⟩)])])
        ([(("ds"), [(("a"), [Value.num 3]), (("b"), [Value.str ("w")])])]) []
      = .ok (.outputs none none
          [RenderError.type_mismatch (("Grafiek 1")) ("y") ("barchart") ("laag2") ("b")
            (get_unique_types ([Value.str ("w")]))] ws) :=
  ⟨by decide, by decide,
   update_figures_barchart_type_mismatch ([Value.num 3]) ([Value.str ("w")]) ("a") ("b")
     ("ds") ("laag2") (some ("x")) (some ("y")) (some ("titel"))
     (("could not convert string to float: w")) (by decide) (by decide)⟩


/-- C3: committing a layer whose layer name already exists in the same figure
slot while the edit-mode selection is not that exact name is rejected: the
layer-store output is no_update (none), so the store is unchanged, and the
returned diagnostics contain exactly one error naming the duplicate layer
name (and no other duplicate-name error occurs among the diagnostics). -/
theorem save_layer_duplicate_rejected :
    ∀ (store : LayerStore) (selected_fig : String) (selected_vis : Option String)
      (selected_data figure_name : Option String) (layer_name : String)
      (x_data x_axis y_data y_axis mode map_level map_data map_labels
        aggregate_method colormap add_or_edit : Option String)
      (en : String) (slot_layers : List (String × LayerRec)),
      error_names_lookup selected_fig = some en →
      store.lookup selected_fig = some slot_layers →
      layer_name ≠ ("") →
      (slot_layers.lookup layer_name).isSome = true →
      add_or_edit ≠ some layer_name →
      ∃ errs warns,
        save_layer (some store) selected_fig selected_vis selected_data figure_name
            layer_name x_data x_axis y_data y_axis mode map_level map_data map_labels
            aggregate_method colormap add_or_edit
          = .ok (none, errs, warns)
        ∧ errs.count (SaveError.duplicate_layer_name en layer_name) = 1
        ∧ errs.countP (fun e => match e with
            | SaveError.duplicate_layer_name _ _ => true
            | _ => false) = 1 := by
  intro store fig vis sdata fname lname xd xa yd ya mo ml md mlb am cm aoe en slot
    h_en h_slot h_name h_dup h_edit
  rw [save_layer, h_en]
  simp only [Option.getD_some, h_slot, Option.isSome_some, if_true, if_pos h_name]
  have hdupif : (if (List.lookup lname slot).isSome = true ∧ aoe ≠ some lname
      then [SaveError.duplicate_layer_name en lname] else ([] : List SaveError))
      = [SaveError.duplicate_layer_name en lname] := if_pos ⟨h_dup, h_edit⟩
  rw [hdupif]
  rw [if_pos (List.append_ne_nil_of_right_ne_nil _ (by simp))]
  refine ⟨_, _, rfl, ?_, ?_⟩
  · rw [List.count_append]
    split_ifs <;>
      simp [List.count_append, List.count_cons, List.count_nil]
  · rw [List.countP_append]
    split_ifs <;>
      simp [List.countP_append, List.countP_cons, List.countP_nil]

/-- Witness for C3 at a concrete store: re-committing the map layer laag1
under its existing name outside edit mode is rejected with exactly one
duplicate-name error and no store update. -/
theorem save_layer_duplicate_rejected_witness :
    error_names_lookup ("map_vis") = some ("Kaart visualisatie")
    ∧ ([(("map_vis"), [(("laag1"), (⟨none, ("laag1"), some ("choroplethmapbox"), none,
          none, none, none, none, none, some ("Buurt"), some ("d"), some ("c"),
          some ("mean"), none⟩ : LayerRec))])] : LayerStore).lookup ("map_vis")
        = some [(("laag1"), (⟨none, ("laag1"), some ("choroplethmapbox"), none,
            none, none, none, none, none, some ("Buurt"), some ("d"), some ("c"),
            some ("mean"), none⟩ : LayerRec))]
    ∧ (("laag1") : String) ≠ ("")
    ∧ (([(("laag1"), (⟨none, ("laag1"), some ("choroplethmapbox"), none,
          none, none, none, none, none, some ("Buurt"), some ("d"), some ("c"),
          some ("mean"), none⟩ : LayerRec))] :
          List (String × LayerRec)).lookup ("laag1")).isSome = true
    ∧ (none : Option String) ≠ some ("laag1")
    ∧ ∃ errs warns,
        save_layer (some [(("map_vis"), [(("laag1"), (⟨none, ("laag1"),
            some ("choroplethmapbox"), none, none, none, none, none, none,
            some ("Buurt"), some ("d"), some ("c"), some ("mean"), none⟩ : LayerRec))])])
            ("map_vis") (some ("choroplethmapbox")) none none ("laag1") none none none
            none none (some ("Buurt")) (some ("d")) (some ("c")) (some ("mean")) none none
          = .ok (none, errs, warns)
        ∧ errs.count (SaveError.duplicate_layer_name (("Kaart visualisatie")) ("laag1")) = 1
        ∧ errs.countP (fun e => match e with
            | SaveError.duplicate_layer_name _ _ => true
            | _ => false) = 1 :=
  ⟨by decide, by decide, by decide, by decide, by decide,
   save_layer_duplicate_rejected
     ([(("map_vis"), [(("laag1"), (⟨none, ("laag1"), some ("choroplethmapbox"), none,
         none, none, none, none, none, some ("Buurt"), some ("d"), some ("c"),
         some ("mean"), none⟩ : LayerRec))])])
     ("map_vis") (some ("choroplethmapbox")) none none ("laag1") none none none none
     none (some ("Buurt")) (some ("d")) (some ("c")) (some ("mean")) none none
     (("Kaart visualisatie"))
     ([(("laag1"), (⟨none, ("laag1"), some ("choroplethmapbox"), none, none, none,
         none, none, none, some ("Buurt"), some ("d"), some ("c"), some ("mean"),
         none⟩ : LayerRec))])
     (by decide) (by decide) (by decide) (by decide) (by decide)⟩
